import Mathlib

/-!
Verification of the chunk-normalization and page-aggregation core of the
Chandra OCR HTTP service (`app/main.py`).

The embedding models the Python values that flow through `_chunk_to_dict`
and the aggregation loop of `_run_ocr`:

* `Value` is the universe of Python values the chunk pipeline touches
  (`None`, `int`, `float`, `str`, `list`, `tuple`).  Python floats are
  modelled as rationals.
* Fallible Python code (expressions that can raise, such as `float(x)` on a
  non-numeric value or slicing a non-subscriptable value) is modelled with
  `Except String`.
* A raw chunk is either a key-value mapping (`isinstance(chunk, dict)`
  branch) or an attribute-bearing object (the `else` branch); both carry a
  finite association list from field names to values.
-/

inductive Value where
  | none
  | int (n : Int)
  | float (q : ℚ)
  | str (s : String)
  | list (l : List Value)
  | tup (l : List Value)

/-- Python truthiness for the values in the model: `None`, `0`, `0.0`, `""`,
`[]` and `()` are falsy, everything else is truthy. -/
def pyTruthy : Value → Bool
  | Value.none => false
  | Value.int n => if n = 0 then false else true
  | Value.float q => if q = 0 then false else true
  | Value.str s => if s = "" then false else true
  | Value.list l => !l.isEmpty
  | Value.tup l => !l.isEmpty

/-- Python `a or b`: `a` when `a` is truthy, otherwise `b`. -/
def pyOr (a b : Value) : Value := if pyTruthy a then a else b

/-- Python `chunk.get(k)` on a mapping-shaped chunk: the stored value when
the key is present, `None` otherwise. -/
def pyGet (m : List (String × Value)) (k : String) : Value :=
  (m.lookup k).getD Value.none

/-- The attribute-probing loop shape used by `_chunk_to_dict` for non-dict
chunks: scan candidate attribute names in order and return the first one
that is present with a non-`None` value (`hasattr` and the `val is not None`
guard before `break`). -/
def firstNonNone (a : List (String × Value)) : List String → Option Value
  | [] => Option.none
  | k :: ks =>
    match a.lookup k with
    | some Value.none => firstNonNone a ks
    | some v => some v
    | Option.none => firstNonNone a ks

/-- Python `repr` of a value, used only through `pyStr` below.  The exact
rendering of composite values never matters to the verified claims. -/
def pyRepr : Value → String
  | Value.none => "None"
  | Value.int n => toString n
  | Value.float q => toString q
  | Value.str s => "'" ++ s ++ "'"
  | Value.list l => "[" ++ ", ".intercalate (l.attach.map (fun x => pyRepr x.1)) ++ "]"
  | Value.tup l => "(" ++ ", ".intercalate (l.attach.map (fun x => pyRepr x.1)) ++ ")"
decreasing_by all_goals (simp_wf; have h := List.sizeOf_lt_of_mem x.2; omega)

/-- Python `str(v)`. -/
def pyStr : Value → String
  | Value.str s => s
  | v => pyRepr v

/-- Numeric value of a digit list, as a natural number. -/
def digitsToNat (cs : List Char) : Nat :=
  cs.foldl (fun acc c => acc * 10 + (c.toNat - 48)) 0

/-- Python `float(s)` on a string, for the common sign/digits/fraction
forms (`"12"`, `"-3.5"`, `".5"`, `"1."`).  Exponents, `inf`/`nan`,
whitespace and underscores — all accepted by Python — are not modelled;
no verified claim depends on them. -/
def parseFloat? (s : String) : Option ℚ :=
  let step1 : Bool × List Char :=
    match s.data with
    | '-' :: t => (true, t)
    | '+' :: t => (false, t)
    | t => (false, t)
  let ip := step1.2.takeWhile (fun c => c ≠ '.')
  let rest := step1.2.dropWhile (fun c => c ≠ '.')
  let mag? : Option ℚ :=
    match rest with
    | [] =>
      if ip.isEmpty || !(ip.all Char.isDigit) then Option.none
      else some (mkRat (digitsToNat ip) 1)
    | _ :: fp =>
      if (ip.isEmpty && fp.isEmpty) || !(ip.all Char.isDigit) || !(fp.all Char.isDigit)
      then Option.none
      else some (mkRat (digitsToNat ip * 10 ^ fp.length + digitsToNat fp) (10 ^ fp.length))
  mag?.map (fun q => if step1.1 then -q else q)

/-- Python `float(x)`: succeeds on ints, floats and numeric strings, raises
`TypeError`/`ValueError` otherwise. -/
def pyFloat : Value → Except String ℚ
  | Value.int n => Except.ok (mkRat n 1)
  | Value.float q => Except.ok q
  | Value.str s =>
    match parseFloat? s with
    | some q => Except.ok q
    | Option.none => Except.error "ValueError: could not convert string to float"
  | Value.none => Except.error "TypeError: float() argument must be a string or a real number, not NoneType"
  | Value.list _ => Except.error "TypeError: float() argument must be a string or a real number, not list"
  | Value.tup _ => Except.error "TypeError: float() argument must be a string or a real number, not tuple"

/-- Python `round(x, 2)` on the rational model of floats, as
`floor(x*100 + 1/2) / 100` computed on numerator and denominator.  The
source leaves the rounding mode on exact halves unspecified (binary-float
round-half-even artifacts); the claims below never depend on a half-way
case. -/
def round2 (q : ℚ) : ℚ :=
  mkRat (Int.fdiv (200 * q.num + q.den) (2 * q.den)) 100

/-- Python `list(v)` for iterable `v` (`list`, `tuple`, `str`), `none`
when `v` is not iterable.  Iterating a string yields its one-character
strings. -/
def pyToList? : Value → Option (List Value)
  | Value.list l => some l
  | Value.tup l => some l
  | Value.str s => some (s.data.map (fun c => Value.str (String.mk [c])))
  | _ => Option.none

/-- Lines 79–80 of `main.py`: `if bbox is not None and not isinstance(bbox,
list): bbox = list(bbox) if hasattr(bbox, "__iter__") else None`. -/
def coerceBboxValue : Value → Option (List Value)
  | Value.none => Option.none
  | Value.list l => some l
  | v => pyToList? v

/-- Python string slice `s[:n]`: the first `n` code points. -/
def strTake (s : String) (n : Nat) : String := String.mk (s.data.take n)

/-- Python `v[:500]` on the already-`or`-defaulted text value: strings,
lists and tuples slice; other truthy values raise `TypeError`. -/
def pySlice500 : Value → Except String Value
  | Value.str s => Except.ok (Value.str (strTake s 500))
  | Value.list l => Except.ok (Value.list (l.take 500))
  | Value.tup l => Except.ok (Value.tup (l.take 500))
  | _ => Except.error "TypeError: value is not subscriptable"

/-- Line 83 of `main.py`: `(text or "")[:500]`. -/
def pyTruncate (v : Value) : Except String Value :=
  pySlice500 (pyOr v (Value.str ""))

/-- Sequential effectful map for `Except`, mirroring a Python list
comprehension or accumulation loop that raises at the first failing
element. -/
def mapMExc (f : α → Except String β) : List α → Except String (List β)
  | [] => Except.ok []
  | x :: xs =>
    (f x).bind (fun y => (mapMExc f xs).map (fun ys => y :: ys))

/-- A raw chunk as `_chunk_to_dict` receives it: either a dict or an
attribute-bearing object, each an association list of field names to
values. -/
inductive RawChunk where
  | mapping (m : List (String × Value))
  | attrObj (a : List (String × Value))

/-- Line 58: `text = chunk.get("text") or chunk.get("content") or
chunk.get("markdown") or ""`. -/
def resolveTextMapping (m : List (String × Value)) : Value :=
  pyOr (pyOr (pyOr (pyGet m "text") (pyGet m "content")) (pyGet m "markdown")) (Value.str "")

/-- Line 59: `kind = chunk.get("type") or chunk.get("category") or kind`
with `kind` initialised to `"unknown"`. -/
def resolveKindMapping (m : List (String × Value)) : Value :=
  pyOr (pyOr (pyGet m "type") (pyGet m "category")) (Value.str "unknown")

/-- Line 57: `bbox = chunk.get("bbox") or chunk.get("box")`. -/
def resolveBboxValueMapping (m : List (String × Value)) : Value :=
  pyOr (pyGet m "bbox") (pyGet m "box")

/-- Lines 61–66: the text attribute loop, with `str(val)` coercion and
`""` default. -/
def resolveTextAttr (a : List (String × Value)) : String :=
  match firstNonNone a ["text", "content", "markdown"] with
  | some v => pyStr v
  | Option.none => ""

/-- Lines 73–78: the type attribute loop, with `str(val)` coercion and
`"unknown"` default. -/
def resolveKindAttr (a : List (String × Value)) : String :=
  match firstNonNone a ["type", "category", "kind"] with
  | some v => pyStr v
  | Option.none => "unknown"

/-- Lines 67–72: the bbox attribute loop, converting the first non-`None`
candidate to a list when it is iterable, `None` otherwise. -/
def resolveBboxAttr (a : List (String × Value)) : Option (List Value) :=
  match firstNonNone a ["bbox", "box", "bounding_box"] with
  | some v => pyToList? v
  | Option.none => Option.none

/-- The bbox value after shape dispatch and lines 79–80 (always a Python
list or `None` from here on). -/
def resolvedBbox : RawChunk → Option (List Value)
  | RawChunk.mapping m => coerceBboxValue (resolveBboxValueMapping m)
  | RawChunk.attrObj a => resolveBboxAttr a

/-- The text value after shape dispatch (attribute shape always yields a
string via `str`). -/
def resolvedText : RawChunk → Value
  | RawChunk.mapping m => resolveTextMapping m
  | RawChunk.attrObj a => Value.str (resolveTextAttr a)

/-- The type value after shape dispatch. -/
def resolvedKind : RawChunk → Value
  | RawChunk.mapping m => resolveKindMapping m
  | RawChunk.attrObj a => Value.str (resolveKindAttr a)

/-- The normalized chunk dict `{"page": ..., "type": ..., "bbox": ...,
"text": ...}` returned by `_chunk_to_dict`. -/
structure Chunk where
  page : Nat
  type : Value
  bbox : Option (List Value)
  text : Value

/-- Lines 81–82: `if bbox and len(bbox) >= 4: bbox = [round(float(x), 2)
for x in bbox[:4]]`.  (`len(bbox) >= 4` subsumes the truthiness test, since
a list of length at least 4 is non-empty.)  A `float` failure inside the
comprehension propagates as an exception. -/
def normalizeBbox : Option (List Value) → Except String (Option (List Value))
  | Option.none => Except.ok Option.none
  | some l =>
    if 4 ≤ l.length then
      (mapMExc pyFloat (l.take 4)).map
        (fun qs => some (qs.map (fun q => Value.float (round2 q))))
    else Except.ok (some l)

/-- `_chunk_to_dict(chunk, page_num)` (lines 51–83 of `main.py`). -/
def _chunk_to_dict (chunk : RawChunk) (page_num : Nat) : Except String Chunk :=
  (normalizeBbox (resolvedBbox chunk)).bind (fun bbox =>
    (pyTruncate (resolvedText chunk)).map (fun text =>
      { page := page_num, type := resolvedKind chunk, bbox := bbox, text := text }))

/-- One per-page result from the external inference engine, as `_run_ocr`
consumes it (fields that Python may carry as `None` are `Option`). -/
structure PageResult where
  markdown : Option String
  html : Option String
  token_count : Option Int
  chunks : Option (List RawChunk)
  images : Option (List Unit)
  error : Option String

/-- One entry of `pages_meta` (lines 121–128 of `main.py`); the `error`
key is present only when `result.error` is truthy. -/
structure PageMeta where
  page_num : Nat
  token_count : Option Int
  num_chunks : Nat
  num_images : Nat
  error : Option String

/-- The `if result.error:` guard of line 127: keep a string only when it
is truthy (present and non-empty). -/
def truthyStr : Option String → Option String
  | some e => if e = "" then Option.none else some e
  | Option.none => Option.none

/-- Lines 121–128: the `pages_meta` entry built for one page. -/
def pageMetaOf (page_num : Nat) (result : PageResult) : PageMeta :=
  { page_num := page_num
    token_count := result.token_count
    num_chunks := (result.chunks.getD []).length
    num_images := (result.images.getD []).length
    error := truthyStr result.error }

/-- The accumulators of the `for page_num, result in enumerate(results)`
loop (lines 111–131). -/
structure AggState where
  all_markdown : List String
  all_html : List String
  pages_meta : List PageMeta
  structure_ : List Chunk
  total_tokens : Int

/-- One iteration of the aggregation loop: append markdown/html, add
tokens, build the page meta, and normalize this page's chunks (a failing
chunk normalization propagates as an exception). `n` is the 0-based
`enumerate` index. -/
def processPage (st : AggState) (n : Nat) (result : PageResult) : Except String AggState :=
  (mapMExc (fun ch => _chunk_to_dict ch (n + 1)) (result.chunks.getD [])).map (fun cs =>
    { all_markdown := st.all_markdown ++ [result.markdown.getD ""]
      all_html := st.all_html ++ [result.html.getD ""]
      pages_meta := st.pages_meta ++ [pageMetaOf (n + 1) result]
      structure_ := st.structure_ ++ cs
      total_tokens := st.total_tokens + result.token_count.getD 0 })

/-- The aggregation loop over the page results, from `enumerate` index `n`. -/
def aggLoop : AggState → Nat → List PageResult → Except String AggState
  | st, _, [] => Except.ok st
  | st, n, r :: rs => (processPage st n r).bind (fun st2 => aggLoop st2 (n + 1) rs)

/-- The response dict of `_run_ocr`.  The empty-input return (lines 94–101)
and the aggregated return (lines 133–140) carry different key sets:
`total_token_count` is absent in the former, `error` absent in the latter;
both are `Option` here. -/
structure DocumentResult where
  markdown : String
  html : String
  structure_ : List Chunk
  pages : List PageMeta
  num_pages : Nat
  total_token_count : Option Int
  error : Option String

/-- The aggregation core of `_run_ocr` (lines 92–140 of `main.py`),
starting from the ordered per-page results.  The empty check mirrors
`if not images:` — the inference engine maps page images one-to-one to
page results, so zero pages means zero results. -/
def _run_ocr (results : List PageResult) : Except String DocumentResult :=
  match results with
  | [] =>
    Except.ok
      { markdown := "", html := "", structure_ := [], pages := [], num_pages := 0,
        total_token_count := Option.none,
        error := some "No pages could be loaded from the file" }
  | _ :: _ =>
    (aggLoop ⟨[], [], [], [], 0⟩ 0 results).map (fun st =>
      { markdown := "\n\n".intercalate st.all_markdown
        html := "\n\n".intercalate st.all_html
        structure_ := st.structure_
        pages := st.pages_meta
        num_pages := results.length
        total_token_count := some st.total_tokens
        error := Option.none })

/-- The flattened structure list the loop accumulates, from `enumerate`
index `n`: each page contributes its normalized chunks, in order, tagged
with the 1-based page number. -/
def structureOf : Nat → List PageResult → Except String (List Chunk)
  | _, [] => Except.ok []
  | n, r :: rs =>
    (mapMExc (fun ch => _chunk_to_dict ch (n + 1)) (r.chunks.getD [])).bind (fun cs =>
      (structureOf (n + 1) rs).map (fun rest => cs ++ rest))

/-- The page-meta list the loop accumulates, from `enumerate` index `n`. -/
def pageMetasFrom : Nat → List PageResult → List PageMeta
  | _, [] => []
  | n, r :: rs => pageMetaOf (n + 1) r :: pageMetasFrom (n + 1) rs

/-- First-match-wins lookup, following the specification wording: scan the
candidate keys in order and return the first whose value is truthy,
falling back to the default.  Used to compare the mapping-shape `or`
chains of the source against the spec claim about field resolution. -/
def firstTruthy (m : List (String × Value)) : List String → Value → Value
  | [], d => d
  | k :: ks, d => if pyTruthy (pyGet m k) then pyGet m k else firstTruthy m ks d

/-- Decidable premise forms for the shape-tolerance claim: a key is either
absent or carries a truthy string. -/
def goodStrB (a : List (String × Value)) (k : String) : Bool :=
  match a.lookup k with
  | Option.none => true
  | some (Value.str s) => !(s == "")
  | some _ => false

/-- A key is either absent or carries a truthy (non-empty) list. -/
def goodListB (a : List (String × Value)) (k : String) : Bool :=
  match a.lookup k with
  | Option.none => true
  | some (Value.list l) => !l.isEmpty
  | some _ => false

/-! ## Helper lemmas -/

theorem pyTruthy_pyOr (a b : Value) : pyTruthy (pyOr a b) = (pyTruthy a || pyTruthy b) := by
  unfold pyOr
  cases h : pyTruthy a <;> simp [h]

theorem pyOr_pos {a : Value} (b : Value) (h : pyTruthy a = true) : pyOr a b = a := by
  simp [pyOr, h]

theorem pyOr_neg {a : Value} (b : Value) (h : pyTruthy a = false) : pyOr a b = b := by
  simp [pyOr, h]

theorem mapMExc_ok_length {α β : Type} {f : α → Except String β} :
    ∀ {xs : List α} {ys : List β}, mapMExc f xs = Except.ok ys → ys.length = xs.length := by
  intro xs
  induction xs with
  | nil => intro ys h; simp only [mapMExc] at h; cases h; rfl
  | cons x xs ih =>
    intro ys h
    simp only [mapMExc] at h
    cases hfx : f x with
    | error e => rw [hfx] at h; simp [Except.bind] at h
    | ok y =>
      rw [hfx] at h
      cases hrest : mapMExc f xs with
      | error e => rw [hrest] at h; simp [Except.bind, Except.map] at h
      | ok ys0 =>
        rw [hrest] at h
        simp only [Except.bind, Except.map] at h
        cases h
        simp [ih hrest]

theorem mapMExc_ok_mem {α β : Type} {f : α → Except String β} :
    ∀ {xs : List α} {ys : List β}, mapMExc f xs = Except.ok ys →
      ∀ y ∈ ys, ∃ x ∈ xs, f x = Except.ok y := by
  intro xs
  induction xs with
  | nil =>
    intro ys h y hy
    simp only [mapMExc] at h
    cases h
    cases hy
  | cons x xs ih =>
    intro ys h y hy
    simp only [mapMExc] at h
    cases hfx : f x with
    | error e => rw [hfx] at h; simp [Except.bind] at h
    | ok y0 =>
      rw [hfx] at h
      cases hrest : mapMExc f xs with
      | error e => rw [hrest] at h; simp [Except.bind, Except.map] at h
      | ok ys0 =>
        rw [hrest] at h
        simp only [Except.bind, Except.map] at h
        cases h
        rcases List.mem_cons.mp hy with h0 | h0
        · exact ⟨x, by simp, by rw [hfx, h0]⟩
        · obtain ⟨x2, hx2, hfx2⟩ := ih hrest y h0
          exact ⟨x2, by simp [hx2], hfx2⟩

theorem _chunk_to_dict_page {ch : RawChunk} {p : Nat} {c : Chunk}
    (h : _chunk_to_dict ch p = Except.ok c) : c.page = p := by
  unfold _chunk_to_dict at h
  cases hb : normalizeBbox (resolvedBbox ch) with
  | error e => rw [hb] at h; simp [Except.bind] at h
  | ok b =>
    rw [hb] at h
    cases ht : pyTruncate (resolvedText ch) with
    | error e => rw [ht] at h; simp [Except.bind, Except.map] at h
    | ok t =>
      rw [ht] at h
      simp only [Except.bind, Except.map] at h
      cases h
      rfl

theorem aggLoop_ok :
    ∀ (rs : List PageResult) (st : AggState) (n : Nat) (st2 : AggState),
      aggLoop st n rs = Except.ok st2 →
      st2.all_markdown = st.all_markdown ++ rs.map (fun p => p.markdown.getD "")
      ∧ st2.all_html = st.all_html ++ rs.map (fun p => p.html.getD "")
      ∧ st2.pages_meta = st.pages_meta ++ pageMetasFrom n rs
      ∧ st2.total_tokens = st.total_tokens + (rs.map (fun p => p.token_count.getD 0)).sum
      ∧ ∃ l, structureOf n rs = Except.ok l ∧ st2.structure_ = st.structure_ ++ l := by
  intro rs
  induction rs with
  | nil =>
    intro st n st2 h
    simp only [aggLoop] at h
    cases h
    exact ⟨by simp, by simp, by simp [pageMetasFrom], by simp, [], by simp [structureOf], by simp⟩
  | cons r rs ih =>
    intro st n st2 h
    simp only [aggLoop, processPage] at h
    cases hm : mapMExc (fun ch => _chunk_to_dict ch (n + 1)) (r.chunks.getD []) with
    | error e => rw [hm] at h; simp [Except.bind, Except.map] at h
    | ok cs =>
      rw [hm] at h
      simp only [Except.bind, Except.map] at h
      obtain ⟨h1, h2, h3, h4, l, hl, h5⟩ := ih _ _ _ h
      refine ⟨?_, ?_, ?_, ?_, cs ++ l, ?_, ?_⟩
      · simp [h1, List.append_assoc]
      · simp [h2, List.append_assoc]
      · simp [h3, pageMetasFrom, List.append_assoc]
      · simp [h4, List.sum_cons, add_assoc]
      · simp [structureOf, hm, hl, Except.bind, Except.map]
      · simp [h5, List.append_assoc]

theorem run_ocr_ok (results : List PageResult) (r : DocumentResult)
    (hne : results ≠ []) (h : _run_ocr results = Except.ok r) :
    r.markdown = "\n\n".intercalate (results.map (fun p => p.markdown.getD ""))
    ∧ r.html = "\n\n".intercalate (results.map (fun p => p.html.getD ""))
    ∧ r.pages = pageMetasFrom 0 results
    ∧ r.num_pages = results.length
    ∧ r.total_token_count = some ((results.map (fun p => p.token_count.getD 0)).sum)
    ∧ r.error = Option.none
    ∧ structureOf 0 results = Except.ok r.structure_ := by
  cases results with
  | nil => exact absurd rfl hne
  | cons p ps =>
    simp only [_run_ocr] at h
    cases ha : aggLoop ⟨[], [], [], [], 0⟩ 0 (p :: ps) with
    | error e => rw [ha] at h; simp [Except.map] at h
    | ok st =>
      rw [ha] at h
      simp only [Except.map] at h
      obtain ⟨h1, h2, h3, h4, l, hl, h5⟩ := aggLoop_ok _ _ _ _ ha
      cases h
      refine ⟨by simp [h1], by simp [h2], by simp [h3], rfl, by simp [h4], rfl, ?_⟩
      simp only [h5, List.nil_append]
      exact hl

theorem pageMetasFrom_length : ∀ (rs : List PageResult) (n : Nat),
    (pageMetasFrom n rs).length = rs.length := by
  intro rs
  induction rs with
  | nil => intro n; rfl
  | cons r rs ih => intro n; simp [pageMetasFrom, ih]

theorem pageMetasFrom_get? : ∀ (rs : List PageResult) (n k : Nat),
    (pageMetasFrom n rs).get? k = (rs.get? k).map (fun p => pageMetaOf (n + k + 1) p) := by
  intro rs
  induction rs with
  | nil => intro n k; simp [pageMetasFrom]
  | cons r rs ih =>
    intro n k
    cases k with
    | zero => simp [pageMetasFrom]
    | succ k =>
      have harith : n + 1 + k + 1 = n + (k + 1) + 1 := by omega
      simp only [pageMetasFrom, List.get?]
      rw [ih (n + 1) k, harith]

theorem structureOf_mem : ∀ (rs : List PageResult) (n : Nat) (l : List Chunk),
    structureOf n rs = Except.ok l → ∀ c ∈ l, n + 1 ≤ c.page ∧ c.page ≤ n + rs.length := by
  intro rs
  induction rs with
  | nil =>
    intro n l h c hc
    simp only [structureOf] at h
    cases h
    cases hc
  | cons r rs ih =>
    intro n l h c hc
    simp only [structureOf] at h
    cases hm : mapMExc (fun ch => _chunk_to_dict ch (n + 1)) (r.chunks.getD []) with
    | error e => rw [hm] at h; simp [Except.bind] at h
    | ok cs =>
      rw [hm] at h
      cases hrest : structureOf (n + 1) rs with
      | error e => rw [hrest] at h; simp [Except.bind, Except.map] at h
      | ok rest =>
        rw [hrest] at h
        simp only [Except.bind, Except.map] at h
        cases h
        rcases List.mem_append.mp hc with h0 | h0
        · obtain ⟨ch, _, hch⟩ := mapMExc_ok_mem hm c h0
          have := _chunk_to_dict_page hch
          rw [this]
          simp only [List.length_cons]
          omega
        · have := ih (n + 1) rest hrest c h0
          simp only [List.length_cons]
          omega

theorem pairwise_le_map_of_const {l : List Chunk} {p : Nat} (h : ∀ c ∈ l, c.page = p) :
    (l.map Chunk.page).Pairwise (· ≤ ·) := by
  induction l with
  | nil => simp
  | cons c l ih =>
    simp only [List.map_cons, List.pairwise_cons]
    constructor
    · intro b hb
      obtain ⟨c2, hc2, rfl⟩ := List.mem_map.mp hb
      rw [h c (by simp), h c2 (by simp [hc2])]
    · exact ih (fun c2 hc2 => h c2 (by simp [hc2]))

theorem structureOf_sorted : ∀ (rs : List PageResult) (n : Nat) (l : List Chunk),
    structureOf n rs = Except.ok l → (l.map Chunk.page).Pairwise (· ≤ ·) := by
  intro rs
  induction rs with
  | nil =>
    intro n l h
    simp only [structureOf] at h
    cases h
    simp
  | cons r rs ih =>
    intro n l h
    simp only [structureOf] at h
    cases hm : mapMExc (fun ch => _chunk_to_dict ch (n + 1)) (r.chunks.getD []) with
    | error e => rw [hm] at h; simp [Except.bind] at h
    | ok cs =>
      rw [hm] at h
      cases hrest : structureOf (n + 1) rs with
      | error e => rw [hrest] at h; simp [Except.bind, Except.map] at h
      | ok rest =>
        rw [hrest] at h
        simp only [Except.bind, Except.map] at h
        cases h
        rw [List.map_append]
        refine List.pairwise_append.mpr ⟨?_, ih (n + 1) rest hrest, ?_⟩
        · refine pairwise_le_map_of_const (p := n + 1) (fun c hc => ?_)
          obtain ⟨ch, _, hch⟩ := mapMExc_ok_mem hm c hc
          exact _chunk_to_dict_page hch
        · intro a ha b hb
          obtain ⟨c1, hc1, rfl⟩ := List.mem_map.mp ha
          obtain ⟨c2, hc2, rfl⟩ := List.mem_map.mp hb
          obtain ⟨ch, _, hch⟩ := mapMExc_ok_mem hm c1 hc1
          have h1 := _chunk_to_dict_page hch
          have h2 := (structureOf_mem rs (n + 1) rest hrest c2 hc2).1
          omega

/-! ## Case-analysis helpers for the shape-tolerance claim -/

theorem goodStrB_elim {a : List (String × Value)} {k : String} (h : goodStrB a k = true) :
    (a.lookup k = Option.none ∧ pyGet a k = Value.none)
    ∨ ∃ s, ¬s = "" ∧ a.lookup k = some (Value.str s) ∧ pyGet a k = Value.str s := by
  cases hl : a.lookup k with
  | none => exact Or.inl ⟨rfl, by simp [pyGet, hl]⟩
  | some v =>
    cases v with
    | str s =>
      simp only [goodStrB, hl] at h
      refine Or.inr ⟨s, ?_, rfl, by simp [pyGet, hl]⟩
      simpa using h
    | none => simp [goodStrB, hl] at h
    | int n => simp [goodStrB, hl] at h
    | float q => simp [goodStrB, hl] at h
    | list l => simp [goodStrB, hl] at h
    | tup l => simp [goodStrB, hl] at h

theorem goodListB_elim {a : List (String × Value)} {k : String} (h : goodListB a k = true) :
    (a.lookup k = Option.none ∧ pyGet a k = Value.none)
    ∨ ∃ l, ¬l = [] ∧ a.lookup k = some (Value.list l) ∧ pyGet a k = Value.list l := by
  cases hl : a.lookup k with
  | none => exact Or.inl ⟨rfl, by simp [pyGet, hl]⟩
  | some v =>
    cases v with
    | list l =>
      simp only [goodListB, hl] at h
      refine Or.inr ⟨l, ?_, rfl, by simp [pyGet, hl]⟩
      simpa [List.isEmpty_iff] using h
    | none => simp [goodListB, hl] at h
    | int n => simp [goodListB, hl] at h
    | float q => simp [goodListB, hl] at h
    | str s => simp [goodListB, hl] at h
    | tup l => simp [goodListB, hl] at h

theorem mapAttrTextEq (a : List (String × Value))
    (h1 : goodStrB a "text" = true) (h2 : goodStrB a "content" = true)
    (h3 : goodStrB a "markdown" = true) :
    resolveTextMapping a = Value.str (resolveTextAttr a) := by
  rcases goodStrB_elim h1 with ⟨hl1, hg1⟩ | ⟨s1, hs1, hl1, hg1⟩ <;>
  rcases goodStrB_elim h2 with ⟨hl2, hg2⟩ | ⟨s2, hs2, hl2, hg2⟩ <;>
  rcases goodStrB_elim h3 with ⟨hl3, hg3⟩ | ⟨s3, hs3, hl3, hg3⟩ <;>
  simp [resolveTextMapping, resolveTextAttr, firstNonNone, pyOr, pyTruthy, pyStr, *]

theorem mapAttrKindEq (a : List (String × Value))
    (h1 : goodStrB a "type" = true) (h2 : goodStrB a "category" = true)
    (hk : a.lookup "kind" = Option.none) :
    resolveKindMapping a = Value.str (resolveKindAttr a) := by
  rcases goodStrB_elim h1 with ⟨hl1, hg1⟩ | ⟨s1, hs1, hl1, hg1⟩ <;>
  rcases goodStrB_elim h2 with ⟨hl2, hg2⟩ | ⟨s2, hs2, hl2, hg2⟩ <;>
  simp [resolveKindMapping, resolveKindAttr, firstNonNone, pyOr, pyTruthy, pyStr, *]

theorem mapAttrBboxEq (a : List (String × Value))
    (h1 : goodListB a "bbox" = true) (h2 : goodListB a "box" = true)
    (hbb : a.lookup "bounding_box" = Option.none) :
    coerceBboxValue (resolveBboxValueMapping a) = resolveBboxAttr a := by
  rcases goodListB_elim h1 with ⟨hl1, hg1⟩ | ⟨l1, hn1, hl1, hg1⟩ <;>
  rcases goodListB_elim h2 with ⟨hl2, hg2⟩ | ⟨l2, hn2, hl2, hg2⟩ <;>
  simp [resolveBboxValueMapping, resolveBboxAttr, coerceBboxValue, firstNonNone, pyToList?,
    pyOr, pyTruthy, List.isEmpty_iff, *]

/-! ## Claims -/

/-- C1 (counterexample): the Chunk Normalizer does not always succeed — a
mapping chunk whose bbox contains `None` makes `_chunk_to_dict` raise a
`TypeError` from `float(None)` instead of returning a chunk with bbox
absent. -/
theorem c1_counterexample :
    _chunk_to_dict
      (RawChunk.mapping [("bbox", Value.list [Value.none, Value.float 1, Value.float 2, Value.float 3])]) 1
      = Except.error "TypeError: float() argument must be a string or a real number, not NoneType" := rfl

/-- C1 (amended): `_chunk_to_dict` returns a normalized Chunk whenever the
required coercions succeed — every element of the first 4 of a resolved
bbox of length at least 4 coerces to float, and the resolved text value is
sliceable; a bbox coercion failure propagates as an exception (surfaced by
the HTTP layer as a request failure), not as bbox-absent. -/
theorem c1_amended (chunk : RawChunk) (page : Nat)
    (hb : ∀ l : List Value, resolvedBbox chunk = some l → 4 ≤ l.length →
      ∃ qs, mapMExc pyFloat (l.take 4) = Except.ok qs)
    (ht : ∃ v, pyTruncate (resolvedText chunk) = Except.ok v) :
    ∃ c, _chunk_to_dict chunk page = Except.ok c := by
  obtain ⟨v, hv⟩ := ht
  have hB : ∃ b, normalizeBbox (resolvedBbox chunk) = Except.ok b := by
    cases hrb : resolvedBbox chunk with
    | none => exact ⟨Option.none, rfl⟩
    | some l =>
      by_cases hlen : 4 ≤ l.length
      · obtain ⟨qs, hqs⟩ := hb l hrb hlen
        exact ⟨some (qs.map (fun q => Value.float (round2 q))),
          by simp [normalizeBbox, if_pos hlen, hqs, Except.map]⟩
      · exact ⟨some l, by simp [normalizeBbox, if_neg hlen]⟩
  obtain ⟨b, hbv⟩ := hB
  refine ⟨⟨page, resolvedKind chunk, b, v⟩, ?_⟩
  unfold _chunk_to_dict
  simp [hbv, hv, Except.bind, Except.map]

/-- C1 (witness): a concrete chunk on which the amended success conditions
hold, and `_chunk_to_dict` indeed returns a chunk. -/
theorem c1_witness :
    (∀ l : List Value, resolvedBbox (RawChunk.mapping [("text", Value.str "hi")]) = some l →
      4 ≤ l.length → ∃ qs, mapMExc pyFloat (l.take 4) = Except.ok qs)
    ∧ (∃ v, pyTruncate (resolvedText (RawChunk.mapping [("text", Value.str "hi")])) = Except.ok v)
    ∧ ∃ c, _chunk_to_dict (RawChunk.mapping [("text", Value.str "hi")]) 1 = Except.ok c := by
  have hb : ∀ l : List Value, resolvedBbox (RawChunk.mapping [("text", Value.str "hi")]) = some l →
      4 ≤ l.length → ∃ qs, mapMExc pyFloat (l.take 4) = Except.ok qs := by
    intro l hl
    have h0 : resolvedBbox (RawChunk.mapping [("text", Value.str "hi")]) = Option.none := rfl
    rw [h0] at hl
    cases hl
  exact ⟨hb, ⟨Value.str "hi", rfl⟩, c1_amended _ 1 hb ⟨Value.str "hi", rfl⟩⟩

/-- C2 (counterexample): the empty-input response of `_run_ocr` is not the
record the claim states — it carries no `total_token_count` key at all
(modelled as `Option.none`), rather than `total_token_count = 0`. -/
theorem c2_counterexample :
    _run_ocr [] ≠ Except.ok
      ⟨"", "", [], [], 0, some 0, some "No pages could be loaded from the file"⟩ := by
  simp [_run_ocr]

/-- C2 (amended): for the empty input sequence, `_run_ocr` returns exactly
empty markdown/html, empty structure, empty pages, `num_pages = 0` and the
error message — with the `total_token_count` key absent (not 0). -/
theorem c2_amended :
    _run_ocr [] = Except.ok
      ⟨"", "", [], [], 0, Option.none, some "No pages could be loaded from the file"⟩ := rfl

/-- C3 (counterexample): a resolved bbox with exactly 2 elements is not
discarded — `_chunk_to_dict` returns it unchanged (unrounded), so bbox is
present, contradicting the claim that it becomes absent. -/
theorem c3_counterexample :
    _chunk_to_dict (RawChunk.mapping [("bbox", Value.list [Value.float 1, Value.float 2])]) 5
      = Except.ok ⟨5, Value.str "unknown", some [Value.float 1, Value.float 2], Value.str ""⟩
    ∧ (some [Value.float 1, Value.float 2] : Option (List Value)) ≠ Option.none :=
  ⟨rfl, by simp⟩

/-- C3 (amended): a resolved bbox with fewer than 4 elements is passed
through to the normalized chunk unchanged (no coercion, no rounding, no
discarding); bbox is absent only when no candidate field resolves to an
iterable value at all. -/
theorem c3_amended (chunk : RawChunk) (page : Nat) (l : List Value) (c : Chunk)
    (hb : resolvedBbox chunk = some l) (hlen : l.length < 4)
    (hok : _chunk_to_dict chunk page = Except.ok c) :
    c.bbox = some l := by
  unfold _chunk_to_dict at hok
  rw [hb] at hok
  simp only [normalizeBbox] at hok
  rw [if_neg (by omega)] at hok
  cases ht : pyTruncate (resolvedText chunk) with
  | error e => rw [ht] at hok; simp [Except.bind, Except.map] at hok
  | ok t =>
    rw [ht] at hok
    simp only [Except.bind, Except.map] at hok
    cases hok
    rfl

/-- C3 (witness): concrete evaluation of the amended claim on a 2-element
bbox. -/
theorem c3_witness :
    resolvedBbox (RawChunk.mapping [("bbox", Value.list [Value.float 1, Value.float 2])])
      = some [Value.float 1, Value.float 2]
    ∧ ([Value.float 1, Value.float 2] : List Value).length < 4
    ∧ _chunk_to_dict (RawChunk.mapping [("bbox", Value.list [Value.float 1, Value.float 2])]) 5
        = Except.ok ⟨5, Value.str "unknown", some [Value.float 1, Value.float 2], Value.str ""⟩
    ∧ (⟨5, Value.str "unknown", some [Value.float 1, Value.float 2], Value.str ""⟩ : Chunk).bbox
        = some [Value.float 1, Value.float 2] :=
  ⟨rfl, by decide, rfl,
    c3_amended (RawChunk.mapping [("bbox", Value.list [Value.float 1, Value.float 2])]) 5
      [Value.float 1, Value.float 2]
      ⟨5, Value.str "unknown", some [Value.float 1, Value.float 2], Value.str ""⟩
      rfl (by decide) rfl⟩

/-- C4 (counterexample): in mapping shape, a key present with a non-null
but falsy value does not win — `{"text": "", "content": "hello"}`
resolves text to `"hello"`, not to the present-but-empty `""`. -/
theorem c4_counterexample :
    (_chunk_to_dict (RawChunk.mapping [("text", Value.str ""), ("content", Value.str "hello")]) 1).toOption.map
        (fun c => pyStr c.text) = some "hello"
    ∧ ("hello" : String) ≠ "" :=
  ⟨rfl, by simp⟩

/-- C4 (amended): for mapping-shape chunks, each field resolves to the
first candidate key whose value is truthy — keys holding non-null falsy
values (empty text, falsy type, empty bbox list) are skipped in favour of
later candidates or the default.  (For the bbox field the equivalence with
first-truthy-wins additionally needs the last candidate to be truthy,
absent, or `None`: when every bbox candidate is falsy the `or` chain
returns the last falsy value itself rather than a clean absent.) -/
theorem c4_amended (m : List (String × Value))
    (hbb : pyTruthy (pyGet m "bbox") = true ∨ pyTruthy (pyGet m "box") = true
      ∨ pyGet m "box" = Value.none) :
    resolveTextMapping m = firstTruthy m ["text", "content", "markdown"] (Value.str "")
    ∧ resolveKindMapping m = firstTruthy m ["type", "category"] (Value.str "unknown")
    ∧ resolveBboxValueMapping m = firstTruthy m ["bbox", "box"] Value.none := by
  refine ⟨?_, ?_, ?_⟩
  · cases h1 : pyTruthy (pyGet m "text") <;>
    cases h2 : pyTruthy (pyGet m "content") <;>
    cases h3 : pyTruthy (pyGet m "markdown") <;>
    simp [resolveTextMapping, firstTruthy, pyOr, pyTruthy_pyOr, h1, h2, h3]
  · cases h1 : pyTruthy (pyGet m "type") <;>
    cases h2 : pyTruthy (pyGet m "category") <;>
    simp [resolveKindMapping, firstTruthy, pyOr, pyTruthy_pyOr, h1, h2]
  · rcases hbb with hb1 | hb2 | hb3
    · simp [resolveBboxValueMapping, firstTruthy, pyOr, hb1]
    · cases h1 : pyTruthy (pyGet m "bbox") <;>
      simp [resolveBboxValueMapping, firstTruthy, pyOr, h1, hb2]
    · cases h1 : pyTruthy (pyGet m "bbox") <;>
      cases h2 : pyTruthy (pyGet m "box") <;>
      simp [resolveBboxValueMapping, firstTruthy, pyOr, h1, h2, hb3]

/-- C4 (witness): concrete evaluation of the amended resolution law on a
mapping with a truthy bbox and a falsy text candidate. -/
theorem c4_witness :
    (pyTruthy (pyGet [("bbox", Value.list [Value.int 1]), ("text", Value.str ""), ("content", Value.str "hello")] "bbox") = true
      ∨ pyTruthy (pyGet [("bbox", Value.list [Value.int 1]), ("text", Value.str ""), ("content", Value.str "hello")] "box") = true
      ∨ pyGet [("bbox", Value.list [Value.int 1]), ("text", Value.str ""), ("content", Value.str "hello")] "box" = Value.none)
    ∧ (resolveTextMapping [("bbox", Value.list [Value.int 1]), ("text", Value.str ""), ("content", Value.str "hello")]
        = firstTruthy [("bbox", Value.list [Value.int 1]), ("text", Value.str ""), ("content", Value.str "hello")]
            ["text", "content", "markdown"] (Value.str "")
      ∧ resolveKindMapping [("bbox", Value.list [Value.int 1]), ("text", Value.str ""), ("content", Value.str "hello")]
        = firstTruthy [("bbox", Value.list [Value.int 1]), ("text", Value.str ""), ("content", Value.str "hello")]
            ["type", "category"] (Value.str "unknown")
      ∧ resolveBboxValueMapping [("bbox", Value.list [Value.int 1]), ("text", Value.str ""), ("content", Value.str "hello")]
        = firstTruthy [("bbox", Value.list [Value.int 1]), ("text", Value.str ""), ("content", Value.str "hello")]
            ["bbox", "box"] Value.none) :=
  ⟨Or.inl rfl, c4_amended _ (Or.inl rfl)⟩

/-- C5 (counterexample): mapping shape and attribute shape do not always
normalize identically on the same field record — with
`text = ""` and `content = "x"` the mapping shape resolves text to `"x"`
(truthiness chain) while the attribute shape resolves it to `""` (first
non-`None` attribute wins). -/
theorem c5_counterexample :
    (_chunk_to_dict (RawChunk.mapping [("text", Value.str ""), ("content", Value.str "x")]) 3).toOption.map
        (fun c => pyStr c.text)
      ≠ (_chunk_to_dict (RawChunk.attrObj [("text", Value.str ""), ("content", Value.str "x")]) 3).toOption.map
        (fun c => pyStr c.text) := by
  intro h
  have h1 : (_chunk_to_dict (RawChunk.mapping [("text", Value.str ""), ("content", Value.str "x")]) 3).toOption.map
      (fun c => pyStr c.text) = some "x" := rfl
  have h2 : (_chunk_to_dict (RawChunk.attrObj [("text", Value.str ""), ("content", Value.str "x")]) 3).toOption.map
      (fun c => pyStr c.text) = some "" := rfl
  rw [h1, h2] at h
  simp at h

/-- C5 (amended): mapping shape and attribute shape normalize identically
whenever the record is restricted to the shared candidate keys with
unambiguous values: every text/type candidate is absent or a truthy
string, every bbox candidate is absent or a truthy list, and the
attribute-only candidates `kind` and `bounding_box` are absent. -/
theorem c5_amended (a : List (String × Value)) (page : Nat)
    (h1 : goodStrB a "text" = true) (h2 : goodStrB a "content" = true)
    (h3 : goodStrB a "markdown" = true)
    (h4 : goodStrB a "type" = true) (h5 : goodStrB a "category" = true)
    (hk : a.lookup "kind" = Option.none)
    (h6 : goodListB a "bbox" = true) (h7 : goodListB a "box" = true)
    (hbb : a.lookup "bounding_box" = Option.none) :
    _chunk_to_dict (RawChunk.mapping a) page = _chunk_to_dict (RawChunk.attrObj a) page := by
  have e1 : resolvedBbox (RawChunk.mapping a) = resolvedBbox (RawChunk.attrObj a) := by
    simpa [resolvedBbox] using mapAttrBboxEq a h6 h7 hbb
  have e2 : resolvedText (RawChunk.mapping a) = resolvedText (RawChunk.attrObj a) := by
    simpa [resolvedText] using mapAttrTextEq a h1 h2 h3
  have e3 : resolvedKind (RawChunk.mapping a) = resolvedKind (RawChunk.attrObj a) := by
    simpa [resolvedKind] using mapAttrKindEq a h4 h5 hk
  unfold _chunk_to_dict
  rw [e1, e2, e3]

/-- C5 (witness): concrete evaluation of the amended shape-tolerance law. -/
theorem c5_witness :
    goodStrB [("text", Value.str "hello"), ("type", Value.str "table"), ("bbox", Value.list [Value.int 1, Value.int 2, Value.int 3, Value.int 4])] "text" = true
    ∧ goodStrB [("text", Value.str "hello"), ("type", Value.str "table"), ("bbox", Value.list [Value.int 1, Value.int 2, Value.int 3, Value.int 4])] "content" = true
    ∧ goodStrB [("text", Value.str "hello"), ("type", Value.str "table"), ("bbox", Value.list [Value.int 1, Value.int 2, Value.int 3, Value.int 4])] "markdown" = true
    ∧ goodStrB [("text", Value.str "hello"), ("type", Value.str "table"), ("bbox", Value.list [Value.int 1, Value.int 2, Value.int 3, Value.int 4])] "type" = true
    ∧ goodStrB [("text", Value.str "hello"), ("type", Value.str "table"), ("bbox", Value.list [Value.int 1, Value.int 2, Value.int 3, Value.int 4])] "category" = true
    ∧ ([("text", Value.str "hello"), ("type", Value.str "table"), ("bbox", Value.list [Value.int 1, Value.int 2, Value.int 3, Value.int 4])] : List (String × Value)).lookup "kind" = Option.none
    ∧ goodListB [("text", Value.str "hello"), ("type", Value.str "table"), ("bbox", Value.list [Value.int 1, Value.int 2, Value.int 3, Value.int 4])] "bbox" = true
    ∧ goodListB [("text", Value.str "hello"), ("type", Value.str "table"), ("bbox", Value.list [Value.int 1, Value.int 2, Value.int 3, Value.int 4])] "box" = true
    ∧ ([("text", Value.str "hello"), ("type", Value.str "table"), ("bbox", Value.list [Value.int 1, Value.int 2, Value.int 3, Value.int 4])] : List (String × Value)).lookup "bounding_box" = Option.none
    ∧ _chunk_to_dict (RawChunk.mapping [("text", Value.str "hello"), ("type", Value.str "table"), ("bbox", Value.list [Value.int 1, Value.int 2, Value.int 3, Value.int 4])]) 2
        = _chunk_to_dict (RawChunk.attrObj [("text", Value.str "hello"), ("type", Value.str "table"), ("bbox", Value.list [Value.int 1, Value.int 2, Value.int 3, Value.int 4])]) 2 :=
  ⟨rfl, rfl, rfl, rfl, rfl, rfl, rfl, rfl, rfl,
    c5_amended _ 2 rfl rfl rfl rfl rfl rfl rfl rfl rfl⟩

/-- Concrete page results and expected outputs used by the witnesses. -/
def pr61 : PageResult := ⟨some "alpha", some "<p>a</p>", some 1, Option.none, Option.none, Option.none⟩

def pr62 : PageResult := ⟨some "beta", some "<p>b</p>", some 2, Option.none, Option.none, some "timeout"⟩

def pr63 : PageResult := ⟨some "gamma", some "<p>c</p>", some 3, Option.none, Option.none, Option.none⟩

def r6 : DocumentResult :=
  ⟨"alpha\n\nbeta\n\ngamma", "<p>a</p>\n\n<p>b</p>\n\n<p>c</p>", [],
    [⟨1, some 1, 0, 0, Option.none⟩, ⟨2, some 2, 0, 0, some "timeout"⟩, ⟨3, some 3, 0, 0, Option.none⟩],
    3, some 6, Option.none⟩

def pr71 : PageResult := ⟨some "m", Option.none, Option.none, Option.none, Option.none, Option.none⟩

def r7 : DocumentResult := ⟨"m", "", [], [⟨1, Option.none, 0, 0, Option.none⟩], 1, some 0, Option.none⟩

def pr81 : PageResult :=
  ⟨Option.none, Option.none, Option.none,
    some [RawChunk.mapping [("text", Value.str "a1")], RawChunk.mapping [("text", Value.str "a2")]],
    Option.none, Option.none⟩

def pr82 : PageResult :=
  ⟨Option.none, Option.none, Option.none,
    some [RawChunk.mapping [("text", Value.str "b1")]],
    Option.none, Option.none⟩

def r8 : DocumentResult :=
  ⟨"\n\n", "\n\n",
    [⟨1, Value.str "unknown", Option.none, Value.str "a1"⟩,
      ⟨1, Value.str "unknown", Option.none, Value.str "a2"⟩,
      ⟨2, Value.str "unknown", Option.none, Value.str "b1"⟩],
    [⟨1, Option.none, 2, 0, Option.none⟩, ⟨2, Option.none, 1, 0, Option.none⟩],
    2, some 0, Option.none⟩

def chunk9 : RawChunk :=
  RawChunk.mapping
    [("bbox", Value.list [Value.int 1, Value.float (mkRat 1234 1000), Value.str "3.5", Value.int 4, Value.str "junk"])]

def chunk9result : Chunk :=
  ⟨7, Value.str "unknown",
    some [Value.float (mkRat 1 1), Value.float (mkRat 123 100), Value.float (mkRat 7 2), Value.float (mkRat 4 1)],
    Value.str ""⟩

def long501 : String := String.mk (List.replicate 501 'a')

def chunk10 : RawChunk := RawChunk.mapping [("text", Value.str long501)]

def chunk10result : Chunk :=
  ⟨1, Value.str "unknown", Option.none, Value.str (String.mk (List.replicate 500 'a'))⟩

/-- C6 (confirmed): a per-page error is isolated — aggregation still
processes every page (`num_pages` is the full input length), the joined
markdown/html include every page unchanged, the error text is attached to
that page's meta entry, any page whose error is absent (or empty, hence
falsy) gets no error key, and the document-level result has no top-level
error. -/
theorem c6_page_error_isolation (results : List PageResult) (r : DocumentResult)
    (i j : Nat) (e : String)
    (he : (results.get? i).map PageResult.error = some (some e)) (hne : e ≠ "")
    (hj : (results.get? j).map (fun p => truthyStr p.error) = some Option.none)
    (hok : _run_ocr results = Except.ok r) :
    r.num_pages = results.length
    ∧ r.markdown = "\n\n".intercalate (results.map (fun p => p.markdown.getD ""))
    ∧ r.html = "\n\n".intercalate (results.map (fun p => p.html.getD ""))
    ∧ (r.pages.get? i).map PageMeta.error = some (some e)
    ∧ (r.pages.get? j).map PageMeta.error = some Option.none
    ∧ r.error = Option.none := by
  have hnonempty : results ≠ [] := by
    intro hnil
    subst hnil
    simp at he
  obtain ⟨h1, h2, h3, h4, h5, h6, h7⟩ := run_ocr_ok results r hnonempty hok
  refine ⟨h4, h1, h2, ?_, ?_, h6⟩
  · rw [h3, pageMetasFrom_get?]
    cases hgi : results.get? i with
    | none => rw [hgi] at he; simp at he
    | some p =>
      rw [hgi] at he
      simp only [Option.map] at he ⊢
      have hpe : p.error = some e := by
        injection he
      simp [pageMetaOf, truthyStr, hpe, hne]
  · rw [h3, pageMetasFrom_get?]
    cases hgj : results.get? j with
    | none => rw [hgj] at hj; simp at hj
    | some p =>
      rw [hgj] at hj
      simp only [Option.map] at hj ⊢
      have hpe : truthyStr p.error = Option.none := by
        injection hj
      simp [pageMetaOf, hpe]

/-- C6 (witness): three concrete pages, page 2 carrying error
`"timeout"`, aggregated per the theorem. -/
theorem c6_witness :
    (([pr61, pr62, pr63] : List PageResult).get? 1).map PageResult.error = some (some "timeout")
    ∧ ("timeout" : String) ≠ ""
    ∧ (([pr61, pr62, pr63] : List PageResult).get? 0).map (fun p => truthyStr p.error) = some Option.none
    ∧ _run_ocr [pr61, pr62, pr63] = Except.ok r6
    ∧ (r6.num_pages = ([pr61, pr62, pr63] : List PageResult).length
      ∧ r6.markdown = "\n\n".intercalate (([pr61, pr62, pr63] : List PageResult).map (fun p => p.markdown.getD ""))
      ∧ r6.html = "\n\n".intercalate (([pr61, pr62, pr63] : List PageResult).map (fun p => p.html.getD ""))
      ∧ (r6.pages.get? 1).map PageMeta.error = some (some "timeout")
      ∧ (r6.pages.get? 0).map PageMeta.error = some Option.none
      ∧ r6.error = Option.none) :=
  ⟨rfl, by decide, rfl, rfl,
    c6_page_error_isolation [pr61, pr62, pr63] r6 1 0 "timeout" rfl (by decide) rfl rfl⟩

/-- C7 (confirmed): for every non-empty input of length N on which
aggregation succeeds, `num_pages = N = len(pages)` and the page meta at
index i has `page_num = i + 1`. -/
theorem c7_page_count_invariant (results : List PageResult) (r : DocumentResult) (i : Nat)
    (hne : results ≠ []) (hi : i < results.length)
    (hok : _run_ocr results = Except.ok r) :
    r.num_pages = results.length
    ∧ r.pages.length = results.length
    ∧ (r.pages.get? i).map PageMeta.page_num = some (i + 1) := by
  obtain ⟨h1, h2, h3, h4, h5, h6, h7⟩ := run_ocr_ok results r hne hok
  refine ⟨h4, by rw [h3, pageMetasFrom_length], ?_⟩
  rw [h3, pageMetasFrom_get?, List.get?_eq_get hi]
  simp [pageMetaOf]

/-- C7 (witness): one concrete page, aggregated per the theorem. -/
theorem c7_witness :
    ([pr71] : List PageResult) ≠ []
    ∧ (0 : Nat) < ([pr71] : List PageResult).length
    ∧ _run_ocr [pr71] = Except.ok r7
    ∧ (r7.num_pages = ([pr71] : List PageResult).length
      ∧ r7.pages.length = ([pr71] : List PageResult).length
      ∧ (r7.pages.get? 0).map PageMeta.page_num = some 1) :=
  ⟨by simp, by decide, rfl, c7_page_count_invariant [pr71] r7 0 (by simp) (by decide) rfl⟩

/-- C8 (confirmed): on success the structure list is exactly the pages'
normalized chunk blocks concatenated in input order (each block normalized
with its page's 1-based number, preserving the page's internal chunk
order), its page tags are pairwise non-decreasing across the whole list,
and every tag lies between 1 and the number of pages. -/
theorem c8_structure_order (results : List PageResult) (r : DocumentResult) (c : Chunk)
    (hne : results ≠ []) (hok : _run_ocr results = Except.ok r)
    (hc : c ∈ r.structure_) :
    structureOf 0 results = Except.ok r.structure_
    ∧ (r.structure_.map Chunk.page).Pairwise (· ≤ ·)
    ∧ 1 ≤ c.page ∧ c.page ≤ results.length := by
  obtain ⟨h1, h2, h3, h4, h5, h6, h7⟩ := run_ocr_ok results r hne hok
  have hb := structureOf_mem results 0 r.structure_ h7 c hc
  exact ⟨h7, structureOf_sorted results 0 r.structure_ h7, by omega, by omega⟩

/-- C8 (witness): two concrete pages with two and one chunks, aggregated
per the theorem. -/
theorem c8_witness :
    ([pr81, pr82] : List PageResult) ≠ []
    ∧ _run_ocr [pr81, pr82] = Except.ok r8
    ∧ (⟨1, Value.str "unknown", Option.none, Value.str "a1"⟩ : Chunk) ∈ r8.structure_
    ∧ (structureOf 0 [pr81, pr82] = Except.ok r8.structure_
      ∧ (r8.structure_.map Chunk.page).Pairwise (· ≤ ·)
      ∧ 1 ≤ (⟨1, Value.str "unknown", Option.none, Value.str "a1"⟩ : Chunk).page
      ∧ (⟨1, Value.str "unknown", Option.none, Value.str "a1"⟩ : Chunk).page ≤ ([pr81, pr82] : List PageResult).length) :=
  ⟨by simp, rfl, List.Mem.head _,
    c8_structure_order [pr81, pr82] r8 ⟨1, Value.str "unknown", Option.none, Value.str "a1"⟩
      (by simp) rfl (List.Mem.head _)⟩

/-- C9 (confirmed): when a resolved bbox has at least 4 elements, the
normalizer slices first — only the first 4 elements are coerced to floats
and rounded to 2 decimals (elements past the fourth are never touched) —
and on success the chunk's bbox is exactly those 4 rounded values. -/
theorem c9_bbox_slicing_first (chunk : RawChunk) (page : Nat) (l : List Value)
    (qs : List ℚ) (c : Chunk)
    (hb : resolvedBbox chunk = some l) (hlen : 4 ≤ l.length)
    (hco : mapMExc pyFloat (l.take 4) = Except.ok qs)
    (hok : _chunk_to_dict chunk page = Except.ok c) :
    c.bbox = some (qs.map (fun q => Value.float (round2 q))) ∧ qs.length = 4 := by
  have hq4 : qs.length = 4 := by
    have hml := mapMExc_ok_length hco
    rw [List.length_take] at hml
    omega
  unfold _chunk_to_dict at hok
  rw [hb] at hok
  simp only [normalizeBbox] at hok
  rw [if_pos hlen, hco] at hok
  simp only [Except.map, Except.bind] at hok
  cases ht : pyTruncate (resolvedText chunk) with
  | error e => rw [ht] at hok; simp at hok
  | ok t =>
    rw [ht] at hok
    simp only [Except.map] at hok
    cases hok
    exact ⟨rfl, hq4⟩

/-- C9 (witness): a 5-element bbox (int, float, numeric string, int, and a
non-coercible junk 5th element) — the junk element past index 3 is never
coerced, and the first 4 are rounded to 2 decimals. -/
theorem c9_witness :
    resolvedBbox chunk9 = some [Value.int 1, Value.float (mkRat 1234 1000), Value.str "3.5", Value.int 4, Value.str "junk"]
    ∧ (4 : Nat) ≤ ([Value.int 1, Value.float (mkRat 1234 1000), Value.str "3.5", Value.int 4, Value.str "junk"] : List Value).length
    ∧ mapMExc pyFloat (([Value.int 1, Value.float (mkRat 1234 1000), Value.str "3.5", Value.int 4, Value.str "junk"] : List Value).take 4)
        = Except.ok [mkRat 1 1, mkRat 1234 1000, mkRat 35 10, mkRat 4 1]
    ∧ _chunk_to_dict chunk9 7 = Except.ok chunk9result
    ∧ (chunk9result.bbox = some (([mkRat 1 1, mkRat 1234 1000, mkRat 35 10, mkRat 4 1] : List ℚ).map (fun q => Value.float (round2 q)))
      ∧ ([mkRat 1 1, mkRat 1234 1000, mkRat 35 10, mkRat 4 1] : List ℚ).length = 4) :=
  ⟨rfl, by decide, rfl, rfl,
    c9_bbox_slicing_first chunk9 7
      [Value.int 1, Value.float (mkRat 1234 1000), Value.str "3.5", Value.int 4, Value.str "junk"]
      [mkRat 1 1, mkRat 1234 1000, mkRat 35 10, mkRat 4 1] chunk9result
      rfl (by decide) rfl rfl⟩

/-- C10 (confirmed): the normalized text is always the 500-code-point
prefix of the resolved text: text longer than 500 is cut to exactly 500
characters (a prefix of the original), and text of at most 500 characters
is kept unchanged. -/
theorem c10_text_truncation (chunk : RawChunk) (page : Nat) (s : String) (c : Chunk)
    (ht : resolvedText chunk = Value.str s)
    (hok : _chunk_to_dict chunk page = Except.ok c) :
    c.text = Value.str (strTake s 500)
    ∧ (500 < s.length → (strTake s 500).length = 500
        ∧ s.data = (strTake s 500).data ++ s.data.drop 500)
    ∧ (s.length ≤ 500 → c.text = Value.str s) := by
  have htex : pyTruncate (resolvedText chunk) = Except.ok (Value.str (strTake s 500)) := by
    rw [ht]
    unfold pyTruncate pyOr
    by_cases hs : s = ""
    · subst hs
      rfl
    · simp [pyTruthy, hs, pySlice500]
  have hct : c.text = Value.str (strTake s 500) := by
    unfold _chunk_to_dict at hok
    cases hb : normalizeBbox (resolvedBbox chunk) with
    | error e => rw [hb] at hok; simp [Except.bind] at hok
    | ok b =>
      rw [hb] at hok
      simp only [Except.bind] at hok
      rw [htex] at hok
      simp only [Except.map] at hok
      cases hok
      rfl
  refine ⟨hct, fun hgt => ⟨?_, ?_⟩, fun hle => ?_⟩
  · have he1 : (strTake s 500).length = (s.data.take 500).length := rfl
    have he2 : s.length = s.data.length := rfl
    rw [he1, List.length_take]
    rw [he2] at hgt
    omega
  · have he3 : (strTake s 500).data = s.data.take 500 := rfl
    rw [he3, List.take_append_drop]
  · rw [hct]
    have he4 : strTake s 500 = s := by
      cases s with
      | mk data => exact congrArg String.mk (List.take_of_length_le hle)
    rw [he4]

set_option maxRecDepth 8192 in
/-- C10 (witness): a 501-character resolved text is truncated to its
500-character prefix. -/
theorem c10_witness :
    resolvedText chunk10 = Value.str long501
    ∧ _chunk_to_dict chunk10 1 = Except.ok chunk10result
    ∧ (500 : Nat) < long501.length
    ∧ (chunk10result.text = Value.str (strTake long501 500)
      ∧ (500 < long501.length → (strTake long501 500).length = 500
          ∧ long501.data = (strTake long501 500).data ++ long501.data.drop 500)
      ∧ (long501.length ≤ 500 → chunk10result.text = Value.str long501)) :=
  ⟨rfl, rfl, by decide, c10_text_truncation chunk10 1 long501 chunk10result rfl rfl⟩

